import Mathlib

/-!
Verification of the shrinkfuzz process harness (`src/shrinkfuzz/__main__.py`).

We shallowly embed the harness: `classify` becomes a pure function from an
explicit harness state (the `first_call` verbosity flag, the
`consecutive_timeouts` counter, and a model of the relevant file system) and
an environment describing the subprocess's behaviour (its outcome and the
output artifact it left behind) to a result, a new state, and a trace of the
I/O actions the call performed, in order.  `interrupt_wait_and_kill` and
`signal_group` become functions producing event traces over an abstract
process model.  The startup sequence of `main` becomes a list of abstract
actions.  SHA1 is an external library routine; it is modelled as an
arbitrary function `List Nat → String` carried in the configuration, so all
definitions stay executable.
-/

namespace Shrinkfuzz

/-- Where a subprocess's stdio is directed: `sys.stdout` on the first call,
`subprocess.DEVNULL` afterwards. -/
inductive Target where
  | stdout
  | devnull
  deriving DecidableEq, Repr

/-- Outcome of one `sp.communicate()` call: either `subprocess.TimeoutExpired`
was raised, or the process exited with `sp.returncode` (negative when killed
by a signal). -/
inductive RunOutcome where
  | timeout
  | exited (code : Int)
  deriving DecidableEq, Repr

/-- The run-time configuration `main` closes over: the input path string
(used by `name_for`), the basename of the output path (used for gallery file
names), the `--hash-size` option, and the SHA1 hex-digest routine (an
external library function, modelled abstractly). -/
structure Config where
  inputName : String
  outputName : String
  hashSize : Nat
  sha1hex : List Nat → String

/-- The files the harness touches: the designated input and output paths and
the corpus buckets it records into.  Buckets are lists of
(file name, content) pairs, newest first. -/
structure FS where
  inputFile : List Nat
  outputFile : Option (List Nat)
  timeouts : List (String × List Nat)
  crashes : List (String × List Nat)
  gallery : List (String × List Nat)
  deriving DecidableEq, Repr

/-- The harness's mutable state: the `first_call` flag, the
`consecutive_timeouts` counter, and the file system. -/
structure CState where
  firstCall : Bool
  consecutiveTimeouts : Nat
  fs : FS
  deriving DecidableEq, Repr

/-- What the environment decides about one subprocess invocation: how
`communicate` ends, and what the output path holds afterwards (`none` when
the target wrote no output artifact). -/
structure Env where
  outcome : RunOutcome
  outputAfter : Option (List Nat)

/-- Result of one `classify` call: either the run aborted via `sys.exit`
with the given status, or a behaviour signature (a set of labels; the empty
set is the discard sentinel returned for crashes and timeouts). -/
inductive CResult where
  | abort (status : Nat)
  | sig (labels : Finset String)
  deriving DecidableEq

/-- Observable I/O actions of one `classify` call, in order. -/
inductive Ev where
  | unlinkOut
  | writeIn (s : List Nat)
  | spawn (t : Target)
  deriving DecidableEq, Repr

/-- `'-'.join((n, input))`. -/
def name_for (cfg : Config) (n : String) : String :=
  n ++ "-" ++ cfg.inputName

/-- `name_for(hashlib.sha1(s).hexdigest()[:8])` — note the fixed width 8. -/
def hashed_name (cfg : Config) (s : List Nat) : String :=
  name_for cfg ((cfg.sha1hex s).take 8)

/-- `record_in(f, s)`: write `s` to a file named `hashed_name(s)` inside
bucket `f`. -/
def record_in (cfg : Config) (bucket : List (String × List Nat))
    (s : List Nat) : List (String × List Nat) :=
  (hashed_name cfg s, s) :: bucket

/-- `os.unlink(output)` with `FileNotFoundError` ignored: a missing artifact
counts as already removed. -/
def removeStale (fs : FS) : FS :=
  { fs with outputFile := none }

/-- `open(input, 'wb').write(s)`: replace the input file's contents. -/
def writeInput (fs : FS) (s : List Nat) : FS :=
  { fs with inputFile := s }

/-- The `return-%d` label. -/
def retLabel (code : Int) : String :=
  "return-" ++ toString code

/-- The `output-%s` label: the truncated digest of the artifact when it
exists, the string rendering of `None` when it does not. -/
def outLabel (cfg : Config) : Option (List Nat) → String
  | none => "output-None"
  | some b => "output-" ++ (cfg.sha1hex b).take cfg.hashSize

/-- The `classify(s)` closure of `main` (lines 83–142): pick the stdio
target per the verbose-once policy, clear the stale output artifact, write
the candidate to the input path, spawn; on timeout record into the timeouts
bucket, bump the counter and abort past 50; otherwise reset the counter and
either record a crash (discard) or build the `return-` / `output-`
signature, copying an existing artifact into the gallery. -/
def classify (cfg : Config) (st : CState) (s : List Nat) (env : Env) :
    CResult × CState × List Ev :=
  let tgt := if st.firstCall then Target.stdout else Target.devnull
  let fs1 := writeInput (removeStale st.fs) s
  let evs := [Ev.unlinkOut, Ev.writeIn s, Ev.spawn tgt]
  let fs2 := { fs1 with outputFile := env.outputAfter }
  match env.outcome with
  | RunOutcome.timeout =>
    let fs3 := { fs2 with timeouts := record_in cfg fs2.timeouts s }
    let n := st.consecutiveTimeouts + 1
    let st' : CState := { firstCall := false, consecutiveTimeouts := n, fs := fs3 }
    if n > 50 then
      (CResult.abort 1, st', evs)
    else
      (CResult.sig ∅, st', evs)
  | RunOutcome.exited code =>
    let st' : CState := { firstCall := false, consecutiveTimeouts := 0, fs := fs2 }
    if code < 0 ∨ code > 127 then
      (CResult.sig ∅,
        { st' with fs := { fs2 with crashes := record_in cfg fs2.crashes s } },
        evs)
    else
      match fs2.outputFile with
      | none =>
        (CResult.sig (insert (retLabel code) {outLabel cfg none}), st', evs)
      | some b =>
        let d := (cfg.sha1hex b).take cfg.hashSize
        let g := (d ++ "-" ++ cfg.outputName, b)
        (CResult.sig (insert (retLabel code) {outLabel cfg (some b)}),
          { st' with fs := { fs2 with gallery := g :: fs2.gallery } },
          evs)

/-- The state the harness's mutable variables start a run in:
`first_call = True`, `consecutive_timeouts = 0`. -/
def initCState (fs : FS) : CState :=
  { firstCall := true, consecutiveTimeouts := 0, fs := fs }

/-- A concrete configuration used by witnesses: default `--hash-size` 8 and a
stand-in 40-character hex digest. -/
def cfg0 : Config :=
  { inputName := "in.txt", outputName := "out.txt", hashSize := 8,
    sha1hex := fun _ => "0123456789abcdef0123456789abcdef01234567" }

/-- An empty concrete file system used by witnesses. -/
def fs0 : FS :=
  { inputFile := [], outputFile := none, timeouts := [], crashes := [],
    gallery := [] }

/-- A `return-…` label never coincides with an `output-…` label. -/
theorem retLabel_ne_outLabel (cfg : Config) (code : Int)
    (o : Option (List Nat)) : retLabel code ≠ outLabel cfg o := by
  have key : ∀ x y : String, ("return-" ++ x) ≠ ("output-" ++ y) := by
    intro x y h
    have h2 : ("return-" ++ x).data = ("output-" ++ y).data := by rw [h]
    simp [String.data_append] at h2
  cases o with
  | none =>
    have : ("output-None" : String) = "output-" ++ "None" := rfl
    rw [retLabel, outLabel, this]
    exact key _ _
  | some b => exact key _ _

/-- C2: a normal exit (status in 0..127) yields the signature holding exactly
`return-<code>` and one output label — the truncated digest of the artifact
when it exists, the absence encoding `output-None` when it does not; a
missing artifact is still a signature, not an error. -/
theorem classify_normal_signature (cfg : Config) (st : CState) (s : List Nat)
    (env : Env) (code : Int)
    (hout : env.outcome = RunOutcome.exited code)
    (h0 : 0 ≤ code) (h1 : code ≤ 127) :
    (classify cfg st s env).1 =
      CResult.sig (insert (retLabel code) {outLabel cfg env.outputAfter}) ∧
    (insert (retLabel code)
      ({outLabel cfg env.outputAfter} : Finset String)).card = 2 := by
  have hcard : (insert (retLabel code)
      ({outLabel cfg env.outputAfter} : Finset String)).card = 2 := by
    rw [Finset.card_insert_of_not_mem (by
      simp [retLabel_ne_outLabel cfg code env.outputAfter])]
    simp
  refine ⟨?_, hcard⟩
  have hno : ¬ (code < 0 ∨ code > 127) := by omega
  cases env with
  | mk outcome outputAfter =>
    cases hout
    cases outputAfter with
    | none => simp [classify, hno, outLabel]
    | some b => simp [classify, hno, outLabel]

/-- Witness for C2 at a concrete input: exit status 0, no output artifact. -/
theorem classify_normal_signature_witness :
    (classify cfg0 (initCState fs0) []
        { outcome := RunOutcome.exited 0, outputAfter := none }).1 =
      CResult.sig (insert (retLabel 0) {outLabel cfg0 none}) ∧
    (insert (retLabel 0) ({outLabel cfg0 none} : Finset String)).card = 2 :=
  classify_normal_signature cfg0 (initCState fs0) []
    { outcome := RunOutcome.exited 0, outputAfter := none } 0 rfl
    (by decide) (by decide)

/-- C3: a crash outcome (exit status negative or above 127) yields the
discard (empty) signature and records the input into the crashes bucket. -/
theorem classify_crash_discards (cfg : Config) (st : CState) (s : List Nat)
    (env : Env) (code : Int)
    (hout : env.outcome = RunOutcome.exited code)
    (hc : code < 0 ∨ code > 127) :
    (classify cfg st s env).1 = CResult.sig ∅ ∧
    (classify cfg st s env).2.1.fs.crashes =
      (hashed_name cfg s, s) :: st.fs.crashes := by
  cases env with
  | mk outcome outputAfter =>
    cases hout
    constructor
    · simp [classify, hc]
    · simp [classify, hc, record_in, removeStale, writeInput]

/-- Witness for C3 at a concrete input: killed by SIGKILL (status −9). -/
theorem classify_crash_discards_witness :
    (classify cfg0 (initCState fs0) [1, 2]
        { outcome := RunOutcome.exited (-9), outputAfter := none }).1 =
      CResult.sig ∅ ∧
    (classify cfg0 (initCState fs0) [1, 2]
        { outcome := RunOutcome.exited (-9), outputAfter := none }).2.1.fs.crashes =
      (hashed_name cfg0 [1, 2], [1, 2]) :: (initCState fs0).fs.crashes :=
  classify_crash_discards cfg0 (initCState fs0) [1, 2]
    { outcome := RunOutcome.exited (-9), outputAfter := none } (-9) rfl
    (by decide)

/-- Counterexample to C4 as stated: on a run's very first invocation a
below-threshold timeout also clears the verbose-once first-call flag
(true → false), so the consecutive-timeout counter is not the only engine
state the invocation affects. -/
theorem classify_timeout_counterexample :
    (classify cfg0 (initCState fs0) []
        { outcome := RunOutcome.timeout, outputAfter := none }).1 =
      CResult.sig ∅ ∧
    (initCState fs0).firstCall = true ∧
    (classify cfg0 (initCState fs0) []
        { outcome := RunOutcome.timeout, outputAfter := none }).2.1.firstCall =
      false := by
  refine ⟨rfl, rfl, rfl⟩

/-- C4 (amended): for every invocation that times out below the
circuit-breaker threshold, `classify` yields the discard (empty) signature,
records the input into the timeouts bucket, increments the
consecutive-timeout counter, and leaves the other buckets untouched; the
counter is the only engine state affected apart from the verbose-once
first-call flag, which every invocation — timeout or not — clears. -/
theorem classify_timeout_discards (cfg : Config) (st : CState) (s : List Nat)
    (env : Env)
    (hout : env.outcome = RunOutcome.timeout)
    (hn : st.consecutiveTimeouts < 50) :
    (classify cfg st s env).1 = CResult.sig ∅ ∧
    (classify cfg st s env).2.1.consecutiveTimeouts =
      st.consecutiveTimeouts + 1 ∧
    (classify cfg st s env).2.1.firstCall = false ∧
    (classify cfg st s env).2.1.fs.timeouts =
      (hashed_name cfg s, s) :: st.fs.timeouts ∧
    (classify cfg st s env).2.1.fs.crashes = st.fs.crashes ∧
    (classify cfg st s env).2.1.fs.gallery = st.fs.gallery := by
  have hno : ¬ (st.consecutiveTimeouts + 1 > 50) := by omega
  cases env with
  | mk outcome outputAfter =>
    cases hout
    refine ⟨?_, ?_, ?_, ?_, ?_, ?_⟩ <;>
      simp [classify, hno, record_in, removeStale, writeInput]

/-- Witness for C4's amended theorem at a concrete input: a timeout on the
run's very first invocation, with the counter at 3. -/
theorem classify_timeout_discards_witness :
    (classify cfg0 { firstCall := true, consecutiveTimeouts := 3, fs := fs0 }
        [7] { outcome := RunOutcome.timeout, outputAfter := none }).1 =
      CResult.sig ∅ ∧
    (classify cfg0 { firstCall := true, consecutiveTimeouts := 3, fs := fs0 }
        [7] { outcome := RunOutcome.timeout, outputAfter := none }).2.1.consecutiveTimeouts =
      ({ firstCall := true, consecutiveTimeouts := 3, fs := fs0 } : CState).consecutiveTimeouts + 1 ∧
    (classify cfg0 { firstCall := true, consecutiveTimeouts := 3, fs := fs0 }
        [7] { outcome := RunOutcome.timeout, outputAfter := none }).2.1.firstCall =
      false ∧
    (classify cfg0 { firstCall := true, consecutiveTimeouts := 3, fs := fs0 }
        [7] { outcome := RunOutcome.timeout, outputAfter := none }).2.1.fs.timeouts =
      (hashed_name cfg0 [7], [7]) :: fs0.timeouts ∧
    (classify cfg0 { firstCall := true, consecutiveTimeouts := 3, fs := fs0 }
        [7] { outcome := RunOutcome.timeout, outputAfter := none }).2.1.fs.crashes =
      fs0.crashes ∧
    (classify cfg0 { firstCall := true, consecutiveTimeouts := 3, fs := fs0 }
        [7] { outcome := RunOutcome.timeout, outputAfter := none }).2.1.fs.gallery =
      fs0.gallery :=
  classify_timeout_discards cfg0
    { firstCall := true, consecutiveTimeouts := 3, fs := fs0 } [7]
    { outcome := RunOutcome.timeout, outputAfter := none } rfl
    (by decide)

/-- The environment of a harness invocation that always times out. -/
def envTO : Env := { outcome := RunOutcome.timeout, outputAfter := none }

/-- Iterate `classify` against a harness that always times out, stopping
with `none` the moment the run aborts via `sys.exit`. -/
def runAlwaysTimeout (cfg : Config) (s : List Nat) : Nat → CState → Option CState
  | 0, st => some st
  | n + 1, st =>
    match classify cfg st s envTO with
    | (CResult.abort _, _, _) => none
    | (CResult.sig _, st', _) => runAlwaysTimeout cfg s n st'

/-- While the counter stays within the threshold, an always-timing-out run
survives and the counter advances by one per call. -/
theorem runAlwaysTimeout_alive (cfg : Config) (s : List Nat) :
    ∀ (n : Nat) (st : CState), st.consecutiveTimeouts + n ≤ 50 →
      ∃ st', runAlwaysTimeout cfg s n st = some st' ∧
        st'.consecutiveTimeouts = st.consecutiveTimeouts + n := by
  intro n
  induction n with
  | zero => intro st h; exact ⟨st, rfl, rfl⟩
  | succ n ih =>
    intro st h
    have hle : ¬ (st.consecutiveTimeouts + 1 > 50) := by omega
    have step : runAlwaysTimeout cfg s (n + 1) st =
        runAlwaysTimeout cfg s n
          ((classify cfg st s envTO).2.1) := by
      simp only [runAlwaysTimeout, classify, envTO, hle, if_false]
    obtain ⟨st', h1, h2⟩ := ih ((classify cfg st s envTO).2.1) (by
      simp only [classify, envTO, hle, if_false]
      omega)
    refine ⟨st', step.trans h1, ?_⟩
    rw [h2]
    simp only [classify, envTO, hle, if_false]
    omega

/-- Once the counter would pass the threshold, an always-timing-out run
aborts. -/
theorem runAlwaysTimeout_aborts (cfg : Config) (s : List Nat) :
    ∀ (n : Nat) (st : CState), st.consecutiveTimeouts ≤ 50 →
      51 ≤ st.consecutiveTimeouts + n →
      runAlwaysTimeout cfg s n st = none := by
  intro n
  induction n with
  | zero => intro st h1 h2; omega
  | succ n ih =>
    intro st h1 h2
    by_cases habort : st.consecutiveTimeouts + 1 > 50
    · simp only [runAlwaysTimeout, classify, envTO, habort, if_true]
    · have step : runAlwaysTimeout cfg s (n + 1) st =
          runAlwaysTimeout cfg s n
            ((classify cfg st s envTO).2.1) := by
        simp only [runAlwaysTimeout, classify, envTO, habort, if_false]
      rw [step]
      refine ih _ ?_ ?_ <;> simp only [classify, envTO, habort, if_false] <;> omega

/-- C1 (amended): any non-timeout classification resets the
consecutive-timeout counter to zero; against a harness that always times
out, the run is still alive after 50 consecutive timeouts and aborts on the
51st, which exits with the non-zero status 1 — the abort fires when the
counter strictly exceeds the threshold 50, i.e. after exactly 51
consecutive timeouts. -/
theorem circuit_breaker (cfg : Config) (s : List Nat) (fs : FS)
    (st : CState) (env : Env) (code : Int)
    (hcode : env.outcome = RunOutcome.exited code)
    (h50 : st.consecutiveTimeouts = 50) :
    (classify cfg st s env).2.1.consecutiveTimeouts = 0 ∧
    (runAlwaysTimeout cfg s 50 (initCState fs)).isSome = true ∧
    runAlwaysTimeout cfg s 51 (initCState fs) = none ∧
    (classify cfg st s envTO).1 = CResult.abort 1 := by
  refine ⟨?_, ?_, ?_, ?_⟩
  · cases env with
    | mk outcome outputAfter =>
      cases hcode
      by_cases hc : code < 0 ∨ code > 127
      · simp [classify, hc]
      · cases outputAfter with
        | none => simp [classify, hc]
        | some b => simp [classify, hc]
  · obtain ⟨st', h1, _⟩ :=
      runAlwaysTimeout_alive cfg s 50 (initCState fs) (by simp [initCState])
    simp [h1]
  · exact runAlwaysTimeout_aborts cfg s 51 (initCState fs)
      (by simp [initCState]) (by simp [initCState])
  · have habort : st.consecutiveTimeouts + 1 > 50 := by omega
    simp only [classify, envTO, habort, if_true]

/-- Witness for C1 at concrete inputs: a state at the threshold and an
exit-0 environment. -/
theorem circuit_breaker_witness :
    (classify cfg0 { firstCall := false, consecutiveTimeouts := 50, fs := fs0 }
        [] { outcome := RunOutcome.exited 0, outputAfter := none }).2.1.consecutiveTimeouts = 0 ∧
    (runAlwaysTimeout cfg0 [] 50 (initCState fs0)).isSome = true ∧
    runAlwaysTimeout cfg0 [] 51 (initCState fs0) = none ∧
    (classify cfg0 { firstCall := false, consecutiveTimeouts := 50, fs := fs0 }
        [] envTO).1 = CResult.abort 1 :=
  circuit_breaker cfg0 [] fs0
    { firstCall := false, consecutiveTimeouts := 50, fs := fs0 }
    { outcome := RunOutcome.exited 0, outputAfter := none } 0 rfl rfl

/-- Counterexample to C1 as stated: against an always-timing-out harness the
run has NOT aborted after exactly 50 consecutive timeouts — it is still
alive (and only the 51st timeout aborts it). -/
theorem circuit_breaker_counterexample :
    (runAlwaysTimeout cfg0 [] 50 (initCState fs0)).isSome = true ∧
    runAlwaysTimeout cfg0 [] 51 (initCState fs0) = none := by
  constructor
  · obtain ⟨st', h1, _⟩ :=
      runAlwaysTimeout_alive cfg0 [] 50 (initCState fs0) (by simp [initCState])
    simp [h1]
  · exact runAlwaysTimeout_aborts cfg0 [] 51 (initCState fs0)
      (by simp [initCState]) (by simp [initCState])

/-- The witness configuration with a non-default `--hash-size` of 4. -/
def cfgH : Config := { cfg0 with hashSize := 4 }

/-- Counterexample to C6 as stated: with `--hash-size 4`, the fingerprint
used for bucket file names is still truncated to 8 characters, not to the
configured width — while the output-signature digest honours the width. -/
theorem hash_size_counterexample :
    hashed_name cfgH [] ≠ name_for cfgH ((cfgH.sha1hex []).take cfgH.hashSize) ∧
    outLabel cfgH (some []) =
      "output-" ++ (cfgH.sha1hex []).take cfgH.hashSize := by
  constructor
  · decide
  · rfl

/-- C6 (amended): the configured hash-size determines the truncation width
of output-signature content digests only; the candidate fingerprints of
`hashed_name` are always truncated to the fixed width 8, regardless of the
option. -/
theorem hash_size_governs_output_only (cfg : Config) (st : CState)
    (s : List Nat) (env : Env) (code : Int) (b : List Nat)
    (hout : env.outcome = RunOutcome.exited code)
    (h0 : 0 ≤ code) (h1 : code ≤ 127)
    (hb : env.outputAfter = some b) :
    (classify cfg st s env).1 =
      CResult.sig (insert (retLabel code)
        {"output-" ++ (cfg.sha1hex b).take cfg.hashSize}) ∧
    hashed_name cfg s = name_for cfg ((cfg.sha1hex s).take 8) := by
  constructor
  · have hno : ¬ (code < 0 ∨ code > 127) := by omega
    cases env with
    | mk outcome outputAfter =>
      cases hout
      cases hb
      simp [classify, hno, outLabel]
  · rfl

/-- Witness for C6's amended theorem at a concrete input: hash-size 4 and an
empty output artifact. -/
theorem hash_size_governs_output_only_witness :
    (classify cfgH (initCState fs0) []
        { outcome := RunOutcome.exited 0, outputAfter := some [] }).1 =
      CResult.sig (insert (retLabel 0)
        {"output-" ++ (cfgH.sha1hex []).take cfgH.hashSize}) ∧
    hashed_name cfgH [] = name_for cfgH ((cfgH.sha1hex []).take 8) :=
  hash_size_governs_output_only cfgH (initCState fs0) []
    { outcome := RunOutcome.exited 0, outputAfter := some [] } 0 [] rfl
    (by decide) (by decide) rfl

/-- Run a sequence of `classify` calls, threading the harness state and
concatenating each call's I/O trace; an abort ends the run (its own call's
trace included). -/
def runCalls (cfg : Config) : List (List Nat × Env) → CState → CState × List Ev
  | [], st => (st, [])
  | (s, env) :: rest, st =>
    match classify cfg st s env with
    | (CResult.abort _, st', evs) => (st', evs)
    | (CResult.sig _, st', evs) =>
      let r := runCalls cfg rest st'
      (r.1, evs ++ r.2)

/-- The stdio destinations of the spawns in a trace, in order. -/
def spawnTargets (l : List Ev) : List Target :=
  l.filterMap fun e =>
    match e with
    | Ev.spawn t => some t
    | _ => none

/-- Every `classify` call clears the `first_call` flag (and it is never set
again). -/
theorem classify_firstCall_false (cfg : Config) (st : CState) (s : List Nat)
    (env : Env) : (classify cfg st s env).2.1.firstCall = false := by
  cases env with
  | mk outcome outputAfter =>
    cases outcome with
    | timeout => by_cases h : st.consecutiveTimeouts + 1 > 50 <;> simp [classify, h]
    | exited code =>
      by_cases h : code < 0 ∨ code > 127
      · simp [classify, h]
      · cases outputAfter with
        | none => simp [classify, h]
        | some b => simp [classify, h]

/-- Each `classify` call performs exactly one unlink, one input write and
one spawn, in that order, the spawn directed per the verbose-once flag. -/
theorem classify_trace (cfg : Config) (st : CState) (s : List Nat)
    (env : Env) : (classify cfg st s env).2.2 =
      [Ev.unlinkOut, Ev.writeIn s,
       Ev.spawn (if st.firstCall then Target.stdout else Target.devnull)] := by
  cases env with
  | mk outcome outputAfter =>
    cases outcome with
    | timeout => by_cases h : st.consecutiveTimeouts + 1 > 50 <;> simp [classify, h]
    | exited code =>
      by_cases h : code < 0 ∨ code > 127
      · simp [classify, h]
      · cases outputAfter with
        | none => simp [classify, h]
        | some b => simp [classify, h]

/-- Once the flag is cleared, every subsequent spawn is silenced. -/
theorem runCalls_devnull (cfg : Config) :
    ∀ (calls : List (List Nat × Env)) (st : CState), st.firstCall = false →
      ∃ k, spawnTargets (runCalls cfg calls st).2 =
        List.replicate k Target.devnull := by
  intro calls
  induction calls with
  | nil => intro st _; exact ⟨0, rfl⟩
  | cons c rest ih =>
    intro st hfc
    obtain ⟨s, env⟩ := c
    have hevs := classify_trace cfg st s env
    have hfc' := classify_firstCall_false cfg st s env
    rcases hc : classify cfg st s env with ⟨r, st', evs⟩
    rw [hc] at hevs hfc'
    simp only [] at hevs hfc'
    subst hevs
    cases r with
    | abort status =>
      refine ⟨1, ?_⟩
      simp [runCalls, hc, hfc, spawnTargets]
    | sig labels =>
      obtain ⟨k, hk⟩ := ih st' hfc'
      refine ⟨k + 1, ?_⟩
      simp only [runCalls, hc]
      simp only [spawnTargets] at hk ⊢
      simp [List.filterMap_append, hfc, hk, List.replicate_succ]

/-- C7: across all calls of one run, only the very first invocation's stdio
goes to the operator's stdout; every later spawn is directed to the null
device, and the cleared first-call flag never reverts. -/
theorem verbose_once (cfg : Config) (fs : FS)
    (calls : List (List Nat × Env)) :
    (∀ (st : CState) (s : List Nat) (env : Env),
      (classify cfg st s env).2.1.firstCall = false) ∧
    (calls = [] ∨
      ∃ k, spawnTargets (runCalls cfg calls (initCState fs)).2 =
        Target.stdout :: List.replicate k Target.devnull) := by
  refine ⟨fun st s env => classify_firstCall_false cfg st s env, ?_⟩
  cases calls with
  | nil => exact Or.inl rfl
  | cons c rest =>
    refine Or.inr ?_
    obtain ⟨s, env⟩ := c
    have hevs := classify_trace cfg (initCState fs) s env
    have hfc' := classify_firstCall_false cfg (initCState fs) s env
    rcases hc : classify cfg (initCState fs) s env with ⟨r, st', evs⟩
    rw [hc] at hevs hfc'
    simp only [initCState] at hevs
    simp only [] at hevs hfc'
    subst hevs
    cases r with
    | abort status =>
      refine ⟨0, ?_⟩
      simp only [runCalls, hc]
      simp [spawnTargets]
    | sig labels =>
      obtain ⟨k, hk⟩ := runCalls_devnull cfg rest st' hfc'
      refine ⟨k, ?_⟩
      simp only [runCalls, hc]
      simp only [spawnTargets] at hk ⊢
      simp [List.filterMap_append, hk]

/-- C8: before launching the target, every `classify` call removes the stale
output artifact (a missing one counting as already removed) and writes the
candidate bytes to the target-input path, replacing any prior contents; both
actions precede the spawn in the call's trace. -/
theorem pre_launch_io (cfg : Config) (st : CState) (s : List Nat)
    (env : Env) :
    (classify cfg st s env).2.2 =
      [Ev.unlinkOut, Ev.writeIn s,
       Ev.spawn (if st.firstCall then Target.stdout else Target.devnull)] ∧
    (writeInput (removeStale st.fs) s).inputFile = s ∧
    (removeStale st.fs).outputFile = none :=
  ⟨classify_trace cfg st s env, rfl, rfl⟩

/-- The three stdio pipes of a subprocess. -/
inductive Pipe where
  | pout
  | perr
  | pin
  deriving DecidableEq, Repr

/-- Observable actions of `interrupt_wait_and_kill`, in order. -/
inductive KEvent where
  | closePipe (p : Pipe)
  | sigint
  | sleep
  | sigkill
  deriving DecidableEq, Repr

/-- The environment of one `interrupt_wait_and_kill` call: whether the
subprocess had already exited on entry (`sp.returncode is not None`), which
pipes exist, whether the process group still exists when each signal is
attempted (`os.killpg` raises `ProcessLookupError` otherwise), and at which
poll-loop iterations `sp.poll()` reports an exit. -/
structure ProcModel where
  alreadyExited : Bool
  hasStdout : Bool
  hasStderr : Bool
  hasStdin : Bool
  groupAliveAtInt : Bool
  groupAliveAtKill : Bool
  exitedByPoll : Nat → Bool

/-- `for pipe in [sp.stdout, sp.stderr, sp.stdin]: if pipe: pipe.close()`. -/
def closeEvents (p : ProcModel) : List KEvent :=
  (if p.hasStdout then [KEvent.closePipe Pipe.pout] else []) ++
  (if p.hasStderr then [KEvent.closePipe Pipe.perr] else []) ++
  (if p.hasStdin then [KEvent.closePipe Pipe.pin] else [])

/-- The 10-iteration poll loop: at iteration `i`, return silently if
`sp.poll()` reports an exit, otherwise sleep 0.1s; when the fuel runs out,
SIGKILL the group (nothing observable if the group is already gone). -/
def pollLoop (ex : Nat → Bool) (aliveKill : Bool) : Nat → Nat → List KEvent
  | 0, _ => if aliveKill then [KEvent.sigkill] else []
  | fuel + 1, i =>
    if ex i then [] else KEvent.sleep :: pollLoop ex aliveKill fuel (i + 1)

/-- `interrupt_wait_and_kill(sp)`: nothing happens if the subprocess already
exited; otherwise close all pipes, then SIGINT the group (a
`ProcessLookupError` ends the call), then poll up to 10 times at 0.1s
intervals, force-killing only if the process never showed up as exited. -/
def interrupt_wait_and_kill (p : ProcModel) : List KEvent :=
  if p.alreadyExited then []
  else
    closeEvents p ++
      (if p.groupAliveAtInt then
        KEvent.sigint :: pollLoop p.exitedByPoll p.groupAliveAtKill 10 0
      else [])

/-- If some poll in the window reports the exit, the loop stops without a
SIGKILL. -/
theorem pollLoop_no_kill (ex : Nat → Bool) (ak : Bool) :
    ∀ (fuel i : Nat), (∃ j, i ≤ j ∧ j < i + fuel ∧ ex j = true) →
      KEvent.sigkill ∉ pollLoop ex ak fuel i := by
  intro fuel
  induction fuel with
  | zero =>
    intro i h
    obtain ⟨j, h1, h2, _⟩ := h
    omega
  | succ fuel ih =>
    intro i h
    by_cases hi : ex i = true
    · simp [pollLoop, hi]
    · have hi' : ex i = false := by simpa using hi
      obtain ⟨j, h1, h2, h3⟩ := h
      have hji : j ≠ i := by
        intro he
        rw [he] at h3
        rw [h3] at hi'
        exact Bool.noConfusion hi'
      simp only [pollLoop, hi', Bool.false_eq_true, if_false, List.mem_cons,
        not_or]
      exact ⟨by simp, ih (i + 1) ⟨j, by omega, by omega, h3⟩⟩

/-- If no poll in the window reports the exit, the loop sleeps through all
its iterations and then force-kills (when the group still exists). -/
theorem pollLoop_all_fail (ex : Nat → Bool) (ak : Bool) :
    ∀ (fuel i : Nat), (∀ j, i ≤ j → j < i + fuel → ex j = false) →
      pollLoop ex ak fuel i =
        List.replicate fuel KEvent.sleep ++
          (if ak then [KEvent.sigkill] else []) := by
  intro fuel
  induction fuel with
  | zero => intro i _; simp [pollLoop]
  | succ fuel ih =>
    intro i h
    have hi : ex i = false := h i (le_refl i) (by omega)
    simp only [pollLoop, hi, Bool.false_eq_true, if_false,
      List.replicate_succ, List.cons_append, List.cons.injEq, true_and]
    exact ih (i + 1) fun j hj1 hj2 => h j (by omega) (by omega)

/-- SIGKILL is never among the pipe-closing events. -/
theorem sigkill_not_mem_closeEvents (p : ProcModel) :
    KEvent.sigkill ∉ closeEvents p := by
  unfold closeEvents
  split_ifs <;> simp

/-- C5: when the subprocess has not yet exited and its group still exists,
the cleanup closes all pipes first, then sends SIGINT to the group, then
polls for the bounded grace period; a process observed exited at any of the
10 polls is never force-killed, and SIGKILL is sent (group permitting) only
when all 10 polls failed, after the full grace period of sleeps. -/
theorem interrupt_wait_and_kill_spec (p : ProcModel)
    (hrun : p.alreadyExited = false)
    (halive : p.groupAliveAtInt = true) :
    interrupt_wait_and_kill p =
      closeEvents p ++
        KEvent.sigint :: pollLoop p.exitedByPoll p.groupAliveAtKill 10 0 ∧
    ((∃ i, i < 10 ∧ p.exitedByPoll i = true) →
      KEvent.sigkill ∉ interrupt_wait_and_kill p) ∧
    ((∀ i, i < 10 → p.exitedByPoll i = false) →
      interrupt_wait_and_kill p =
        closeEvents p ++
          KEvent.sigint ::
            (List.replicate 10 KEvent.sleep ++
              (if p.groupAliveAtKill then [KEvent.sigkill] else []))) := by
  have hmain : interrupt_wait_and_kill p =
      closeEvents p ++
        KEvent.sigint :: pollLoop p.exitedByPoll p.groupAliveAtKill 10 0 := by
    simp [interrupt_wait_and_kill, hrun, halive]
  refine ⟨hmain, ?_, ?_⟩
  · rintro ⟨i, hi, hex⟩
    rw [hmain]
    simp only [List.mem_append, List.mem_cons]
    rintro (h | h | h)
    · exact sigkill_not_mem_closeEvents p h
    · exact KEvent.noConfusion h
    · exact pollLoop_no_kill p.exitedByPoll p.groupAliveAtKill 10 0
        ⟨i, by omega, by omega, hex⟩ h
  · intro hall
    rw [hmain, pollLoop_all_fail p.exitedByPoll p.groupAliveAtKill 10 0
      fun j _ hj => hall j (by omega)]

/-- A concrete process model used by C5's witness: all pipes present, group
alive, the process exits at the fourth poll. -/
def proc0 : ProcModel :=
  { alreadyExited := false, hasStdout := true, hasStderr := true,
    hasStdin := true, groupAliveAtInt := true, groupAliveAtKill := true,
    exitedByPoll := fun i => i == 3 }

/-- Witness for C5 on `proc0`. -/
theorem interrupt_wait_and_kill_spec_witness :
    interrupt_wait_and_kill proc0 =
      closeEvents proc0 ++
        KEvent.sigint :: pollLoop proc0.exitedByPoll proc0.groupAliveAtKill 10 0 ∧
    ((∃ i, i < 10 ∧ proc0.exitedByPoll i = true) →
      KEvent.sigkill ∉ interrupt_wait_and_kill proc0) ∧
    ((∀ i, i < 10 → proc0.exitedByPoll i = false) →
      interrupt_wait_and_kill proc0 =
        closeEvents proc0 ++
          KEvent.sigint ::
            (List.replicate 10 KEvent.sleep ++
              (if proc0.groupAliveAtKill then [KEvent.sigkill] else []))) :=
  interrupt_wait_and_kill_spec proc0 rfl rfl

/-- `preexec_fn=os.setsid`: the child leads a fresh session, so its process
group id equals its own pid. -/
def spawnedPgid (childPid : Nat) : Nat := childPid

/-- `signal_group(sp, signal)`: the assertion's verdict
(`os.getpgid(sp.pid) != os.getgid()`) and the group `os.killpg` targets. -/
def signal_group (childPgid engineGid : Nat) : Bool × Nat :=
  (childPgid != engineGid, childPgid)

/-- Counterexample to C9 as stated: `os.getgid()` returns the engine's real
group ID, a credential unrelated to process groups, so nothing prevents a
subprocess pid from equalling it — at child pid 1000 under an engine whose
gid is 1000 the assertion fails. -/
theorem signal_group_assert_counterexample :
    ¬ ((signal_group (spawnedPgid 1000) 1000).1 = true) := by decide

/-- C9 (amended): the assertion holds exactly when the subprocess's pid
(its process-group id under `os.setsid`) differs numerically from the
engine's gid, which the OS does not guarantee; and the group the signal
targets is the child's own fresh group, which differs from the engine's
process group whenever the child's pid does. -/
theorem signal_group_assert (childPid engineGid enginePgid : Nat)
    (h1 : childPid ≠ engineGid) (h2 : childPid ≠ enginePgid) :
    (signal_group (spawnedPgid childPid) engineGid).1 = true ∧
    (signal_group (spawnedPgid childPid) engineGid).2 ≠ enginePgid := by
  constructor
  · simp [signal_group, spawnedPgid, h1]
  · simpa [signal_group, spawnedPgid] using h2

/-- Witness for C9's amended theorem at concrete pids. -/
theorem signal_group_assert_witness :
    (signal_group (spawnedPgid 1234) 1000).1 = true ∧
    (signal_group (spawnedPgid 1234) 1000).2 ≠ 999 :=
  signal_group_assert 1234 1000 999 (by decide) (by decide)

/-- Abstract actions of `main`'s startup, in program order. -/
inductive MainAction where
  | classifyEmpty
  | unlinkSeed (s : List Nat)
  | reloadSeed (s : List Nat)
  | runLoop
  deriving DecidableEq, Repr

/-- The seed-reloading loop of `main`: skip files that vanished
(`FileNotFoundError → continue`); for a readable seed not yet seen, unlink
it and classify it. -/
def reloadSeeds (seenF : List Nat → Bool) :
    List (Option (List Nat)) → List MainAction
  | [] => []
  | none :: rest => reloadSeeds seenF rest
  | some s :: rest =>
    (if seenF s then [] else [MainAction.unlinkSeed s, MainAction.reloadSeed s]) ++
      reloadSeeds seenF rest

/-- `main`'s startup sequence after constructing the shrinker: classify the
empty byte string unless already seen, then reload persisted seeds, then
enter the shrink loop. -/
def mainStartup (seenEmpty : Bool) (files : List (Option (List Nat)))
    (seenF : List Nat → Bool) : List MainAction :=
  (if seenEmpty then [] else [MainAction.classifyEmpty]) ++
    reloadSeeds seenF files ++ [MainAction.runLoop]

/-- Seed reloading never classifies the empty input on its own. -/
theorem classifyEmpty_not_mem_reloadSeeds (seenF : List Nat → Bool) :
    ∀ files, MainAction.classifyEmpty ∉ reloadSeeds seenF files := by
  intro files
  induction files with
  | nil => simp [reloadSeeds]
  | cons f rest ih =>
    cases f with
    | none => simpa [reloadSeeds] using ih
    | some s =>
      simp only [reloadSeeds, List.mem_append]
      rintro (h | h)
      · split at h <;> simp_all
      · exact ih h

/-- C10: unless the empty input was already seen, `main` classifies it as
its very first action — before any persisted seed is reloaded and before the
shrink loop starts — and seed reloading itself never classifies the empty
input. -/
theorem main_classifies_empty_first (files : List (Option (List Nat)))
    (seenF : List Nat → Bool) :
    mainStartup false files seenF =
      MainAction.classifyEmpty ::
        (reloadSeeds seenF files ++ [MainAction.runLoop]) ∧
    mainStartup true files seenF =
      reloadSeeds seenF files ++ [MainAction.runLoop] ∧
    MainAction.classifyEmpty ∉ reloadSeeds seenF files := by
  refine ⟨by simp [mainStartup], by simp [mainStartup], ?_⟩
  exact classifyEmpty_not_mem_reloadSeeds seenF files

end Shrinkfuzz
